import Mathlib

/-!
Verification of the Bharati Braille mapping tables
(src/backend/mappings.py) and of the transliteration engine the
specification derives from them.

The Python module consists of three data constants: `halanth`, the
dictionary literal `braille_to_devanagari_priority` and the dictionary
literal `braille_to_devanagari`.  We embed the dictionary literals as
ordered lists of key/value pairs exactly as they appear in the source,
duplicated keys included, and model CPython dictionary-literal
construction (insertion order, later assignment to the same key
overwrites the earlier value) with `mkDict`.  The transliteration
operations `toBraille` and `toDevanagari` do not exist in the source;
they are modelled from the specification.
-/

/-- An entry relates one Braille key string to the tuple (here: list) of
strings it may represent, mirroring one `"key": (v1, v2, ...)` line of
the Python dictionary literals. -/
abbrev Entry := String × List String

/-- Overwrite semantics of a repeated key in a CPython dict literal: if
the key is already present its value is replaced in place, otherwise the
pair is appended. -/
def insertEntry (d : List Entry) (kv : Entry) : List Entry :=
  if d.any (fun p => p.1 == kv.1) then
    d.map (fun p => if p.1 == kv.1 then (p.1, kv.2) else p)
  else
    d ++ [kv]

/-- Construction of a CPython dict from the ordered pair list of a dict
literal: pairs are inserted left to right, later duplicates overwrite. -/
def mkDict (l : List Entry) : List Entry := l.foldl insertEntry []

/-- Halanth glyph, used for the halanth-reversal
(src/backend/mappings.py line 52). -/
def halanth : String := "⠈"

/-- Ordered pair list of the dict literal `braille_to_devanagari_priority`
(src/backend/mappings.py lines 58-63). -/
def braille_to_devanagari_priority_pairs : List Entry :=
  [ ("⠟", ["क्ष"]),
    ("⠱", ["ज्ञ"]) ]

/-- The constructed dict `braille_to_devanagari_priority`. -/
def braille_to_devanagari_priority : List Entry :=
  mkDict braille_to_devanagari_priority_pairs

/-- Ordered pair list of the dict literal `braille_to_devanagari`
(src/backend/mappings.py lines 69-174), in source order, duplicated keys
included. -/
def braille_to_devanagari_pairs : List Entry :=
  [ ("⠈", ["्"]),
    ("⠂", [","]),
    ("⠆", [";"]),
    ("⠒", [":"]),
    ("⠲", ["।", "॥"]),
    ("⠖", ["!"]),
    ("⠦", ["?"]),
    ("⠦", ["“"]),
    ("⠴", ["”"]),
    ("⠠⠦", ["‘"]),
    ("⠴⠄", ["’"]),
    ("⠶", ["(", ")"]),
    ("⠠⠶", ["["]),
    ("⠶⠄", ["]"]),
    ("⠠⠠⠠", ["…"]),
    ("⠔⠔", ["*"]),
    ("⠼⠁", ["1", "१"]),
    ("⠼⠃", ["2", "२"]),
    ("⠼⠉", ["3", "३"]),
    ("⠼⠙", ["4", "४"]),
    ("⠼⠑", ["5", "५"]),
    ("⠼⠋", ["6", "६"]),
    ("⠼⠛", ["7", "७"]),
    ("⠼⠓", ["8", "८"]),
    ("⠼⠊", ["9", "९"]),
    ("⠼⠚", ["0", "०"]),
    ("⠬", ["+"]),
    ("⠤", ["−"]),
    ("⠈⠡", ["×"]),
    ("⠨⠌", ["÷"]),
    ("⠨⠅", ["="]),
    ("⠈⠴⠅", ["%"]),
    ("⠠", ["ः"]),
    ("⠰", ["ं"]),
    ("⠄", ["ँ"]),
    ("⠁", ["अ"]),
    ("⠜", ["आ", "ा"]),
    ("⠊", ["इ", "ि"]),
    ("⠔", ["ई", "ी"]),
    ("⠥", ["उ", "ु"]),
    ("⠳", ["ऊ", "ू"]),
    ("⠐⠗", ["ॠ", "ऋ", "ृ", "ॄ"]),
    ("⠢", ["ऍ", "ॅ"]),
    ("⠑", ["ऎ", "ए", "ॆ", "े"]),
    ("⠌", ["ऐ", "ै"]),
    ("⠭", ["ऑ"]),
    ("⠕", ["ऒ", "ओ", "ॊ", "ो"]),
    ("⠪", ["औ", "ौ"]),
    ("⠅", ["क", "क़"]),
    ("⠨", ["ख", "ख़"]),
    ("⠛", ["ग", "ग़"]),
    ("⠣", ["घ"]),
    ("⠬", ["ङ"]),
    ("⠉", ["च"]),
    ("⠡", ["छ"]),
    ("⠚", ["ज", "ज़"]),
    ("⠴", ["झ"]),
    ("⠒", ["ञ"]),
    ("⠾", ["ट"]),
    ("⠺", ["ठ"]),
    ("⠫", ["ड"]),
    ("⠿", ["ढ"]),
    ("⠼", ["ण"]),
    ("⠞", ["त"]),
    ("⠹", ["थ"]),
    ("⠙", ["द"]),
    ("⠮", ["ध"]),
    ("⠝", ["न", "ऩ"]),
    ("⠏", ["प"]),
    ("⠖", ["फ", "फ़"]),
    ("⠃", ["ब"]),
    ("⠘", ["भ"]),
    ("⠍", ["म"]),
    ("⠽", ["य", "य़"]),
    ("⠗", ["र", "ऱ"]),
    ("⠇", ["ल"]),
    ("⠸", ["ळ", "ऴ"]),
    ("⠧", ["व"]),
    ("⠩", ["श"]),
    ("⠯", ["ष"]),
    ("⠎", ["स"]),
    ("⠓", ["ह"]),
    ("⠻", ["ड़"]),
    ("⠐⠻", ["ढ़"]) ]

/-- The constructed dict `braille_to_devanagari`. -/
def braille_to_devanagari : List Entry :=
  mkDict braille_to_devanagari_pairs

/-- Both constructed tables together, priority entries first. -/
def combinedEntries : List Entry :=
  braille_to_devanagari_priority ++ braille_to_devanagari

/-- Modelled from the spec: the inverted index Devanagari-glyph →
Braille-glyph built at construction time from a table (§4.1
Construction); the engine itself is not part of the source module. -/
def invPairs (d : List Entry) : List (String × String) :=
  (d.map (fun e => e.2.map (fun g => (g, e.1)))).flatten

/-- Modelled from the spec: detection of an ambiguous forward mapping, a
Devanagari glyph mapped from two different Braille glyphs (§7). -/
def ambiguousForward (ps : List (String × String)) : Bool :=
  ps.any (fun a => ps.any (fun b => a.1 == b.1 && a.2 != b.2))

/-- Modelled from the spec: the error raised at table-load time when the
forward inverted index is ambiguous (§7). -/
inductive ConfigurationError where
  | ambiguousForwardMapping

/-- Modelled from the spec: table loading, which builds the forward
inverted index and raises `ConfigurationError` if it is ambiguous
(§4.1 Construction, §7). -/
def loadInvertedIndex (d : List Entry) : Except ConfigurationError (List (String × String)) :=
  let ps := invPairs d
  if ambiguousForward ps then
    Except.error ConfigurationError.ambiguousForwardMapping
  else
    Except.ok ps

/-- Modelled from the spec: the canonical reading of a table in the
Braille → Devanagari direction, pairing each Braille key with the first
(tuple index 0) Devanagari string of its entry (§4.1 toDevanagari). -/
def canonicalPairs (d : List Entry) : List (String × String) :=
  d.filterMap (fun e => (e.2.head?).map (fun g => (e.1, g)))

/-- Length in characters of the longest key of a substitution table. -/
def maxKeyLen (tbl : List (String × String)) : Nat :=
  tbl.foldl (fun m p => max m p.1.data.length) 0

/-- Modelled from the spec: longest-match-first lookup at the front of
`cs`, trying prefix lengths from `n` down to 1 (§4.1 steps ordering,
longest-match-first). Returns the replacement together with the number
of characters consumed. -/
def matchLongest (tbl : List (String × String)) (cs : List Char) : Nat → Option (String × Nat)
  | 0 => none
  | n + 1 =>
    if n + 1 ≤ cs.length then
      match tbl.lookup (String.mk (cs.take (n + 1))) with
      | some v => some (v, n + 1)
      | none => matchLongest tbl cs n
    else
      matchLongest tbl cs n

/-- Modelled from the spec: one left-to-right, non-overlapping,
longest-match-first substitution pass; characters matching no key pass
through unchanged (§4.1, §7 passthrough policy). `fuel` bounds the
recursion and is instantiated with the length of the input. -/
def substGreedy (tbl : List (String × String)) : Nat → List Char → List Char
  | 0, cs => cs
  | _ + 1, [] => []
  | fuel + 1, c :: cs =>
    match matchLongest tbl (c :: cs) (maxKeyLen tbl) with
    | some (v, n) => v.data ++ substGreedy tbl fuel ((c :: cs).drop n)
    | none => c :: substGreedy tbl fuel cs

/-- One substitution pass over a character list. -/
def applyTable (tbl : List (String × String)) (cs : List Char) : List Char :=
  substGreedy tbl cs.length cs

/-- Inverted index of the priority table alone, used in the first pass
of `toBraille`. -/
def devToBraillePriorityIndex : List (String × String) :=
  invPairs braille_to_devanagari_priority

/-- Inverted index built from both constructed tables (§4.1
Construction), used in the second pass of `toBraille`. -/
def devToBrailleIndex : List (String × String) :=
  invPairs combinedEntries

/-- Canonical Braille → Devanagari reading of the priority table. -/
def brailleToDevPriorityTbl : List (String × String) :=
  canonicalPairs braille_to_devanagari_priority

/-- Canonical Braille → Devanagari reading of the main table. -/
def brailleToDevMainTbl : List (String × String) :=
  canonicalPairs braille_to_devanagari

/-- Modelled from the spec: `toBraille` (§4.1). First pass replaces
occurrences of priority Devanagari sequences; second pass substitutes
the remaining text through the inverted index, unmapped characters
passing through unchanged. The halanth needs no explicit move: the spec
notes the reversal is naturally produced by processing order, since the
source virama stands after C1 in Devanagari and before the Braille
glyph of C2 in the output (§4.1 step 3). -/
def toBraille (s : String) : String :=
  String.mk (applyTable devToBrailleIndex (applyTable devToBraillePriorityIndex s.data))

/-- Modelled from the spec: `toDevanagari` (§4.1). Priority table is
scanned first, then the main table, greedily longest sequence first,
emitting the first (canonical) Devanagari string of each matched entry;
unknown glyphs pass through unchanged. -/
def toDevanagari (s : String) : String :=
  String.mk (applyTable brailleToDevMainTbl (applyTable brailleToDevPriorityTbl s.data))

/-- Character test for the Unicode Braille Patterns block. -/
def isBrailleChar (c : Char) : Bool :=
  decide (0x2800 ≤ c.toNat) && decide (c.toNat ≤ 0x28FF)

/-- A substitution table none of whose key characters lies in the
Unicode Braille Patterns block. -/
def tableKeysNonBraille (tbl : List (String × String)) : Bool :=
  tbl.all (fun p => p.1.data.all (fun c => !(isBrailleChar c)))

/-- Lookup of a string starting with a Braille character fails in a
table whose keys contain no Braille character. -/
theorem lookup_none_of_braille_head (tbl : List (String × String)) (c : Char) (l : List Char)
    (htbl : tableKeysNonBraille tbl = true) (hc : isBrailleChar c = true) :
    tbl.lookup (String.mk (c :: l)) = none := by
  induction tbl with
  | nil => rfl
  | cons p tl ih =>
    simp only [tableKeysNonBraille, List.all_cons, Bool.and_eq_true] at htbl
    obtain ⟨k, b⟩ := p
    have hne : (String.mk (c :: l) == k) = false := by
      cases hbe : (String.mk (c :: l) == k) with
      | false => rfl
      | true =>
        exfalso
        have heq : String.mk (c :: l) = k := eq_of_beq hbe
        have h1 : k.data.all (fun x => !(isBrailleChar x)) = true := htbl.1
        rw [← heq] at h1
        simp only [List.all_cons, Bool.and_eq_true, Bool.not_eq_true'] at h1
        rw [hc] at h1
        exact Bool.noConfusion h1.1
    simp only [List.lookup, hne]
    exact ih htbl.2

/-- Longest-match lookup finds nothing at a Braille character in a
table whose keys contain no Braille character. -/
theorem matchLongest_none (tbl : List (String × String)) (c : Char) (cs : List Char)
    (htbl : tableKeysNonBraille tbl = true) (hc : isBrailleChar c = true) :
    ∀ n, matchLongest tbl (c :: cs) n = none := by
  intro n
  induction n with
  | zero => rfl
  | succ n ih =>
    have hl : tbl.lookup (String.mk ((c :: cs).take (n + 1))) = none := by
      rw [List.take_succ_cons]
      exact lookup_none_of_braille_head tbl c _ htbl hc
    simp only [matchLongest, hl]
    split <;> exact ih

/-- A substitution pass leaves a Braille-only character list unchanged
when the table keys contain no Braille character. -/
theorem substGreedy_id (tbl : List (String × String)) (htbl : tableKeysNonBraille tbl = true) :
    ∀ fuel cs, cs.all isBrailleChar = true → substGreedy tbl fuel cs = cs := by
  intro fuel
  induction fuel with
  | zero => intro cs _; rfl
  | succ fuel ih =>
    intro cs hcs
    match cs with
    | [] => rfl
    | c :: cs =>
      simp only [List.all_cons, Bool.and_eq_true] at hcs
      simp only [substGreedy, matchLongest_none tbl c cs htbl hcs.1]
      rw [ih cs hcs.2]

/-- A pass over a Braille-only list is the identity when the table keys
contain no Braille character. -/
theorem applyTable_id (tbl : List (String × String)) (htbl : tableKeysNonBraille tbl = true)
    (cs : List Char) (hcs : cs.all isBrailleChar = true) : applyTable tbl cs = cs :=
  substGreedy_id tbl htbl cs.length cs hcs

set_option maxRecDepth 4000 in
/-- Unknown glyphs pass through: `toBraille` is the identity on strings
made only of Braille Patterns characters. -/
theorem toBraille_id_of_braille (s : String) (h : s.data.all isBrailleChar = true) :
    toBraille s = s := by
  unfold toBraille
  rw [applyTable_id devToBraillePriorityIndex (by decide) s.data h,
      applyTable_id devToBrailleIndex (by decide) s.data h]

set_option maxRecDepth 8000 in
/-- C1: In the constructed tables, every Devanagari glyph appears as a
value in exactly one mapping entry, the inverted index is unambiguous,
and table loading returns the index rather than a ConfigurationError. -/
theorem devanagari_values_unique :
    (combinedEntries.all (fun e =>
      e.2.all (fun g => combinedEntries.countP (fun e2 => e2.2.contains g) == 1))) = true
    ∧ loadInvertedIndex combinedEntries = Except.ok (invPairs combinedEntries) := by
  constructor
  · decide
  · rfl

set_option maxRecDepth 8000 in
/-- C2: The raw table assigns the key ⠦ twice and the key ⠴ twice; the
constructed dict keeps exactly one entry per key (keys are nodup), and
under last-write-wins ⠦ maps to the opening double quote and ⠴ to झ. -/
theorem duplicate_key_resolution :
    (braille_to_devanagari_pairs.countP (fun e => e.1 == "⠦")) = 2
    ∧ (braille_to_devanagari_pairs.countP (fun e => e.1 == "⠴")) = 2
    ∧ (braille_to_devanagari.map Prod.fst).Nodup
    ∧ braille_to_devanagari.lookup "⠦" = some ["“"]
    ∧ braille_to_devanagari.lookup "⠴" = some ["झ"] := by
  refine ⟨by decide, by decide, by decide, by decide, by decide⟩

set_option maxRecDepth 8000 in
/-- C3: Every character of every key of both raw tables, and the
halanth glyph, lies in the six-dot range U+2800 to U+283F. -/
theorem keys_use_six_dots :
    (((braille_to_devanagari_priority_pairs ++ braille_to_devanagari_pairs).all
        (fun e => e.1.data.all (fun c => decide (0x2800 ≤ c.toNat) && decide (c.toNat ≤ 0x283F))))
      && halanth.data.all (fun c => decide (0x2800 ≤ c.toNat) && decide (c.toNat ≤ 0x283F))) = true := by
  decide

set_option maxRecDepth 8000 in
/-- C4: The priority table holds exactly the two conjunct entries, and
conversion matches them atomically: toBraille of the conjunct क्ष is the
single cell ⠟, not the character-by-character expansion ⠅⠈⠯. -/
theorem priority_conjuncts_atomic :
    braille_to_devanagari_priority = [("⠟", ["क्ष"]), ("⠱", ["ज्ञ"])]
    ∧ toBraille "क्ष" = "⠟"
    ∧ toBraille "क्ष" ≠ "⠅⠈⠯" := by
  refine ⟨by decide, by decide, by decide⟩

set_option maxRecDepth 8000 in
/-- C5: For the input क्या (the code points क ् य ा) the halanth cell ⠈
lands immediately before the cell ⠽ of य, giving exactly ⠅⠈⠽⠜. -/
theorem halanth_reversal_kyaa : toBraille "क्या" = "⠅⠈⠽⠜" := by
  decide

set_option maxRecDepth 8000 in
/-- C6: The ASCII digit 5 and the Devanagari digit ५ produce the same
Braille output ⠼⠑, and every one of the ten ASCII digits shares its
Braille output with its Devanagari counterpart. -/
theorem numerals_collapse :
    toBraille "५" = "⠼⠑" ∧ toBraille "5" = "⠼⠑"
    ∧ ([("1", "१"), ("2", "२"), ("3", "३"), ("4", "४"), ("5", "५"),
        ("6", "६"), ("7", "७"), ("8", "८"), ("9", "९"), ("0", "०")].all
          (fun p => toBraille p.1 == toBraille p.2)) = true := by
  refine ⟨by decide, by decide, by decide⟩

set_option maxRecDepth 8000 in
/-- C7: toDevanagari matches the two-cell sequence ⠐⠗ greedily as one
entry, yielding its canonical glyph ॠ, not the concatenation of the two
single-cell conversions. -/
theorem multicell_greedy :
    toDevanagari "⠐⠗" = "ॠ"
    ∧ toDevanagari "⠐⠗" ≠ toDevanagari "⠐" ++ toDevanagari "⠗" := by
  refine ⟨by decide, by decide⟩

set_option maxRecDepth 8000 in
/-- C8: For every glyph in any value tuple of the constructed main
table, the round trip toDevanagari after toBraille yields the first
(tuple index 0) element of the tuple containing it. -/
theorem round_trip_canonical :
    (braille_to_devanagari.all (fun e =>
      e.2.all (fun g => toDevanagari (toBraille g) == e.2.headD ""))) = true := by
  decide

set_option maxRecDepth 8000 in
/-- C9: No character of any value tuple of either raw table lies in the
Unicode Braille Patterns block, so toBraille passes pure-Braille input
through unchanged and is idempotent on it. -/
theorem braille_passthrough_idempotent :
    ((braille_to_devanagari_priority_pairs ++ braille_to_devanagari_pairs).all
        (fun e => e.2.all (fun g => g.data.all (fun c => !(isBrailleChar c))))) = true
    ∧ ∀ s : String, s.data.all isBrailleChar = true →
        toBraille s = s ∧ toBraille (toBraille s) = toBraille s := by
  refine ⟨by decide, fun s h => ?_⟩
  have hid := toBraille_id_of_braille s h
  exact ⟨hid, by rw [hid]; exact hid⟩

set_option maxRecDepth 8000 in
/-- Witness for C9 at the concrete Braille string ⠅⠈⠽⠜. -/
theorem braille_passthrough_idempotent_w :
    ("⠅⠈⠽⠜" : String).data.all isBrailleChar = true
    ∧ toBraille "⠅⠈⠽⠜" = "⠅⠈⠽⠜" :=
  ⟨by decide, (braille_passthrough_idempotent.2 "⠅⠈⠽⠜" (by decide)).1⟩

set_option maxRecDepth 8000 in
/-- C10: The raw main table also assigns ⠒, ⠖ and ⠬ twice each; after
construction the later entries win, ⠒ holding ञ, ⠖ holding फ and फ़, ⠬
holding ङ, and none of the characters colon, exclamation point, plus
sign, question mark or closing double quote remains a value anywhere. -/
theorem extra_duplicate_keys :
    (braille_to_devanagari_pairs.countP (fun e => e.1 == "⠒")) = 2
    ∧ (braille_to_devanagari_pairs.countP (fun e => e.1 == "⠖")) = 2
    ∧ (braille_to_devanagari_pairs.countP (fun e => e.1 == "⠬")) = 2
    ∧ braille_to_devanagari.lookup "⠒" = some ["ञ"]
    ∧ braille_to_devanagari.lookup "⠖" = some ["फ", "फ़"]
    ∧ braille_to_devanagari.lookup "⠬" = some ["ङ"]
    ∧ (braille_to_devanagari.all (fun e =>
        ([":", "!", "+", "?", "”"].all (fun q => !(e.2.contains q))))) = true := by
  refine ⟨by decide, by decide, by decide, by decide, by decide, by decide, by decide⟩
